import Mathlib

/-!
Shallow embedding of the repository:
 - nearestneighbor.py : a QGIS processing algorithm that, for every building
   feature, finds the nearest other building whose shortest connecting
   segment does not cross any road, within a search radius.
 - decision_tree.py : a hard-coded decision-tree classifier over a row of
   named attributes, plus a column-validation wrapper.

Geometry primitives (bounding box, distance, shortest line, intersection
classification) are provided by the external QGIS/GEOS kernel; they are
embedded as an explicit record of functions (GeoModel) that each theorem
quantifies over, while every decision made by the repository code itself
(index query by bounding box, the candidate loop, the crossing
classification, sentinel emission, cancellation, the classifier branches)
is embedded concretely from the source.
-/

namespace NN

/-- A 2-D point with rational coordinates. -/
abbrev Pt := ℚ × ℚ

/-- Axis-aligned bounding box, mirroring QgsRectangle. -/
structure BBox where
  minX : ℚ
  minY : ℚ
  maxX : ℚ
  maxY : ℚ
deriving DecidableEq

/-- QgsRectangle.buffered: grow the box by r on every side
(nearestneighbor.py line 122). -/
def BBox.buffered (b : BBox) (r : ℚ) : BBox :=
  ⟨b.minX - r, b.minY - r, b.maxX + r, b.maxY + r⟩

/-- Axis-aligned box intersection test used by the spatial index. -/
def BBox.intersectsB (a b : BBox) : Bool :=
  decide (a.minX ≤ b.maxX) && decide (b.minX ≤ a.maxX) &&
  decide (a.minY ≤ b.maxY) && decide (b.minY ≤ a.maxY)

/-- The shortest connecting line between two geometries: exactly two
endpoints (asPolyline()[0] and asPolyline()[-1] in crosses_road). -/
structure Segment where
  a : Pt
  b : Pt
deriving DecidableEq

/-- Bounding box of a two-point segment (line_geom.boundingBox(),
nearestneighbor.py line 178). -/
def segBBox (s : Segment) : BBox :=
  ⟨min s.a.1 s.b.1, min s.a.2 s.b.2, max s.a.1 s.b.1, max s.a.2 s.b.2⟩

/-- Classification of intersection(segment, obstacle) as observed by
crosses_road via QgsWkbTypes: empty (intersects() false or isEmpty()),
a pure line result, a single point result, or a mixed geometry
collection, whose type() is neither LineGeometry nor PointGeometry. -/
inductive IntersectionKind where
  | empty : IntersectionKind
  | line : IntersectionKind
  | point : Pt → IntersectionKind
  | mixed : IntersectionKind
deriving DecidableEq

/-- A feature: identifier plus geometry. Attributes other than the two
emitted ones play no role in the search and are omitted. -/
structure Feature (G : Type) where
  fid : ℕ
  geom : G
deriving DecidableEq

/-- The external geometry kernel (qgis.core), as a record of the four
primitives the repository calls: boundingBox(), distance(),
shortestLine(), and intersection() classified by geometry type. -/
structure GeoModel (G : Type) where
  bboxOf : G → BBox
  dist : G → G → ℚ
  shortestLine : G → G → Segment
  intersect : Segment → G → IntersectionKind

/-- The fixed tolerance of the point-touch test
(epsilon = 0.0001, nearestneighbor.py line 199). -/
def epsTol : ℚ := 1 / 10000

/-- The is_endpoint test of crosses_road (lines 200-204): the
intersection point coincides within epsTol, coordinatewise, with the
first or last vertex of the segment. -/
def pointIsEndpoint (seg : Segment) (p : Pt) : Bool :=
  [seg.a, seg.b].any fun pt =>
    decide (|p.1 - pt.1| < epsTol) && decide (|p.2 - pt.2| < epsTol)

/-- The per-obstacle body of crosses_road (lines 185-206): empty means
intersects() was false or the intersection isEmpty(); a line result
returns true; a point result returns true exactly when the point is not
within tolerance of an endpoint; any other geometry type falls through
the elif chain and is not reported as a crossing. -/
def crossesCandidate (seg : Segment) (res : IntersectionKind) : Bool :=
  match res with
  | .empty => false
  | .line => true
  | .point p => !(pointIsEndpoint seg p)
  | .mixed => false

/-- crosses_road (lines 175-208): query the road index by the segment
bounding box, then return true at the first candidate road classified as
a crossing. -/
def crosses_road {G : Type} (M : GeoModel G) (seg : Segment)
    (roads : List (Feature G)) : Bool :=
  (roads.filter fun r => BBox.intersectsB (M.bboxOf r.geom) (segBBox seg)).any
    fun r => crossesCandidate seg (M.intersect seg r.geom)

/-- Candidate retrieval for a source feature (lines 121-125): buffer the
source bounding box by the search radius and query the building index.
The index query is the bounding-box filter over the collection; the
source id to feature lookup of line 135 is fused into it. -/
def candidatesFor {G : Type} (M : GeoModel G) (bfeats : List (Feature G))
    (radius : ℚ) (src : Feature G) : List (Feature G) :=
  bfeats.filter fun f =>
    BBox.intersectsB (M.bboxOf f.geom) ((M.bboxOf src.geom).buffered radius)

/-- State of the candidate loop: none models
min_distance = inf, nearest_id = None; the two variables are written
together at lines 150-151, so one option over the pair is faithful. -/
abbrev SearchState := Option (ℕ × ℚ)

/-- The comparison distance < min_distance with min_distance possibly
infinity (line 142 negated). -/
def betterThan (st : SearchState) (d : ℚ) : Bool :=
  match st with
  | none => true
  | some (_, m) => decide (d < m)

/-- One iteration of the candidate loop (lines 130-151): skip self, skip
when the distance exceeds the radius or fails to improve strictly, skip
when the shortest connecting segment crosses a road, otherwise record the
candidate. -/
def stepCand {G : Type} (M : GeoModel G) (radius : ℚ)
    (roads : List (Feature G)) (src : Feature G)
    (st : SearchState) (c : Feature G) : SearchState :=
  if c.fid = src.fid then st
  else if radius < M.dist src.geom c.geom then st
  else if betterThan st (M.dist src.geom c.geom) = false then st
  else if crosses_road M (M.shortestLine src.geom c.geom) roads then st
  else some (c.fid, M.dist src.geom c.geom)

/-- The full search for one source feature (lines 121-151). -/
def searchFeature {G : Type} (M : GeoModel G) (bfeats roads : List (Feature G))
    (radius : ℚ) (src : Feature G) : SearchState :=
  (candidatesFor M bfeats radius src).foldl (stepCand M radius roads src) none

/-- The output record for one source feature: the source id together with
the two appended attributes nearest_id and nearest_dist. -/
structure OutRec where
  src : ℕ
  nearest_id : ℤ
  nearest_dist : ℚ
deriving DecidableEq

/-- Output assembly for one source feature (lines 153-163): the -1
sentinels replace None and inf when nothing was found. -/
def emitFeature {G : Type} (M : GeoModel G) (bfeats roads : List (Feature G))
    (radius : ℚ) (src : Feature G) : OutRec :=
  match searchFeature M bfeats roads radius src with
  | some (i, d) => ⟨src.fid, (i : ℤ), d⟩
  | none => ⟨src.fid, -1, -1⟩

/-- The source-feature loop (lines 114-165) from iteration counter cur:
feedback.isCanceled() is polled at the top of each iteration and breaks
the loop; otherwise the result for the current feature is computed in
full and added to the sink. -/
def runFrom {G : Type} (M : GeoModel G) (bfeats roads : List (Feature G))
    (radius : ℚ) (canceled : ℕ → Bool) : ℕ → List (Feature G) → List OutRec
  | _, [] => []
  | cur, f :: fs =>
    if canceled cur then []
    else emitFeature M bfeats roads radius f ::
      runFrom M bfeats roads radius canceled (cur + 1) fs

/-- processAlgorithm (lines 80-167): build the indexes, loop over the
building features in order, return the sink contents. The function is
total: no validation of the radius or of the collections occurs anywhere
before or inside the loop. -/
def processAlgorithm {G : Type} (M : GeoModel G)
    (bfeats roads : List (Feature G)) (radius : ℚ)
    (canceled : ℕ → Bool) : List OutRec :=
  runFrom M bfeats roads radius canceled 0 bfeats

/-! Concrete fixtures used to evaluate the definitions on closed inputs. -/

/-- A kernel over a one-point geometry universe: unit squares far from the
single segment, unit distance everywhere, no intersections. -/
def geoT : GeoModel Unit :=
  { bboxOf := fun _ => ⟨0, 0, 1, 1⟩
    dist := fun _ _ => 1
    shortestLine := fun _ _ => ⟨(0, 0), (1, 0)⟩
    intersect := fun _ _ => .empty }

def fT0 : Feature Unit := ⟨0, ()⟩

def fT1 : Feature Unit := ⟨1, ()⟩

/-- A kernel over geometry identifiers 0, 1, 2 and one road: the pair
(0, 2) is at distance 3 but its connecting segment meets the road in a
line overlap; the pair (0, 1) is at distance 5 with a clear segment. -/
def geoW : GeoModel ℕ :=
  { bboxOf := fun _ => ⟨0, 0, 10, 10⟩
    dist := fun g1 g2 =>
      if (g1 = 0 ∧ g2 = 2) ∨ (g1 = 2 ∧ g2 = 0) then 3 else 5
    shortestLine := fun g1 g2 =>
      if (g1 = 0 ∧ g2 = 2) ∨ (g1 = 2 ∧ g2 = 0) then ⟨(0, 0), (3, 0)⟩
      else ⟨(0, 5), (5, 5)⟩
    intersect := fun seg _ =>
      if seg = ⟨(0, 0), (3, 0)⟩ then .line else .empty }

def fW0 : Feature ℕ := ⟨0, 0⟩

def fW1 : Feature ℕ := ⟨1, 1⟩

def fW2 : Feature ℕ := ⟨2, 2⟩

def bfeatsW : List (Feature ℕ) := [fW0, fW1, fW2]

def roadsW : List (Feature ℕ) := [⟨100, 3⟩]

/-- A fixture whose only road intersects the segment in a single point at
the first endpoint of the segment. -/
def segC3 : Segment := ⟨(0, 0), (10, 0)⟩

def geoC3 : GeoModel Unit :=
  { bboxOf := fun _ => ⟨0, -1, 10, 1⟩
    dist := fun _ _ => 0
    shortestLine := fun _ _ => segC3
    intersect := fun _ _ => .point (0, 0) }

def roadC3 : Feature Unit := ⟨3, ()⟩

/-- A fixture whose only road intersects the segment in a mixed geometry
collection while the bounding boxes overlap. -/
def segC4 : Segment := ⟨(0, 0), (10, 0)⟩

def geoC4 : GeoModel Unit :=
  { bboxOf := fun _ => ⟨0, -1, 10, 1⟩
    dist := fun _ _ => 0
    shortestLine := fun _ _ => segC4
    intersect := fun _ _ => .mixed }

def roadC4 : Feature Unit := ⟨7, ()⟩

end NN

namespace DT

/-- An attribute value in a row: boolean or numeric. -/
inductive Value where
  | vBool : Bool → Value
  | vNum : ℚ → Value
deriving DecidableEq

/-- Python truthiness of an attribute value. -/
def truthy : Value → Bool
  | .vBool b => b
  | .vNum q => decide (q ≠ 0)

/-- Numeric view of an attribute value (Python bool is an int). -/
def toNum : Value → ℚ
  | .vBool b => if b then 1 else 0
  | .vNum q => q

/-- A row: ordered mapping of column name to value. -/
abbrev Row := List (String × Value)

/-- Column lookup; none models the missing-key condition of row[key]. -/
def lookupVal (row : Row) (k : String) : Option Value :=
  (row.find? fun p => p.1 = k).map Prod.snd

/-- classify_land_use (decision_tree.py lines 4-68), with every row[...]
subscript embedded as a lookup that fails with the missing key name, in
source evaluation order, including the short-circuit evaluation of the
chained or conditions at lines 51, 59 and 65. -/
def classify_land_use (row : Row) : Except String String :=
  match lookupVal row "Motorway" with
  | none => .error "Motorway"
  | some vM =>
  if truthy vM then .ok "Non Residential" else
  match lookupVal row "Closest" with
  | none => .error "Closest"
  | some vC =>
  if 20 < toNum vC then .ok "Residential" else
  match lookupVal row "PrimarySecondary" with
  | none => .error "PrimarySecondary"
  | some vP =>
  if truthy vP then
    match lookupVal row "frontage_ratio" with
    | none => .error "frontage_ratio"
    | some vF =>
    if toNum vF < 1/5 then .ok "Non Residential" else .ok "Mixed"
  else
    match lookupVal row "frontage_ratio" with
    | none => .error "frontage_ratio"
    | some vF =>
    if toNum vF < 1/5 then .ok "Non Residential" else
    match lookupVal row "Service" with
    | none => .error "Service"
    | some vS =>
    if truthy vS then
      match lookupVal row "frontage_ratio" with
      | none => .error "frontage_ratio"
      | some vF2 =>
      if toNum vF2 < 1/5 then .ok "Non Residential" else .ok "Mixed"
    else
      match lookupVal row "Compactness" with
      | none => .error "Compactness"
      | some vK =>
      if toNum vK < 62/100 then
        match lookupVal row "Area" with
        | none => .error "Area"
        | some vA =>
        if 200 < toNum vA then .ok "Non Residential" else
        match lookupVal row "Corners" with
        | none => .error "Corners"
        | some vR =>
        if 4 < toNum vR then .ok "Non Residential" else
        match lookupVal row "ERI" with
        | none => .error "ERI"
        | some vE =>
        if toNum vE < 9/10 then .ok "Non Residential" else .ok "Residential"
      else
        match lookupVal row "frontage_ratio" with
        | none => .error "frontage_ratio"
        | some vF3 =>
        if 1/2 < toNum vF3 then
          match lookupVal row "Corners" with
          | none => .error "Corners"
          | some vR =>
          if 4 < toNum vR then .ok "Mixed" else
          match lookupVal row "ERI" with
          | none => .error "ERI"
          | some vE =>
          if toNum vE < 9/10 then .ok "Mixed" else .ok "Residential"
        else
          match lookupVal row "Area" with
          | none => .error "Area"
          | some vA =>
          if 200 < toNum vA then .ok "Non Residential" else
          match lookupVal row "Corners" with
          | none => .error "Corners"
          | some vR =>
          if 4 < toNum vR then .ok "Non Residential" else
          match lookupVal row "ERI" with
          | none => .error "ERI"
          | some vE =>
          if toNum vE < 9/10 then .ok "Non Residential" else .ok "Residential"

/-- The required-columns list of process_gpkg (lines 93-97). -/
def required_cols : List String :=
  ["MotorwayBuffer", "StreetAngle", "PrimarySecondary",
   "Frontage", "ServiceBuffer", "Compactness",
   "Area", "Corners", "ERI"]

/-- The missing-column computation of process_gpkg (line 100). -/
def missing_cols (cols : List String) : List String :=
  required_cols.filter fun c => !(cols.contains c)

/-- The column validation of process_gpkg (lines 99-102): true when no
required column is missing and processing proceeds to classification. -/
def validationPasses (cols : List String) : Bool :=
  missing_cols cols = []

/-- A concrete row whose keys are exactly the nine validated columns. -/
def rowC9 : Row :=
  [("MotorwayBuffer", .vBool true), ("StreetAngle", .vNum 10),
   ("PrimarySecondary", .vBool false), ("Frontage", .vNum (1/2)),
   ("ServiceBuffer", .vBool false), ("Compactness", .vNum (7/10)),
   ("Area", .vNum 100), ("Corners", .vNum 4), ("ERI", .vNum 1)]

/-- A concrete row reaching the Service branch with a frontage of 0.3. -/
def rowC10 : Row :=
  [("Motorway", .vBool false), ("Closest", .vNum 10),
   ("PrimarySecondary", .vBool false), ("frontage_ratio", .vNum (3/10)),
   ("Service", .vBool true)]

end DT

open NN DT

lemma stepCand_eq_or {G : Type} (M : GeoModel G) (radius : ℚ)
    (roads : List (Feature G)) (src : Feature G)
    (st : SearchState) (c : Feature G) :
    stepCand M radius roads src st c = st ∨
    (c.fid ≠ src.fid ∧ M.dist src.geom c.geom ≤ radius ∧
     betterThan st (M.dist src.geom c.geom) = true ∧
     crosses_road M (M.shortestLine src.geom c.geom) roads = false ∧
     stepCand M radius roads src st c = some (c.fid, M.dist src.geom c.geom)) := by
  unfold stepCand
  split_ifs with h1 h2 h3 h4
  · exact Or.inl rfl
  · exact Or.inl rfl
  · exact Or.inl rfl
  · exact Or.inl rfl
  · exact Or.inr ⟨h1, not_lt.mp h2, by simpa using h3, by simpa using h4, rfl⟩

lemma foldl_step_mono {G : Type} (M : GeoModel G) (radius : ℚ)
    (roads : List (Feature G)) (src : Feature G) (l : List (Feature G)) :
    ∀ (i : ℕ) (m : ℚ), ∃ i2 m2,
      l.foldl (stepCand M radius roads src) (some (i, m)) = some (i2, m2) ∧
      m2 ≤ m := by
  induction l with
  | nil => intro i m; exact ⟨i, m, rfl, le_refl m⟩
  | cons a t ih =>
    intro i m
    rcases stepCand_eq_or M radius roads src (some (i, m)) a with
      h | ⟨_, _, hb, _, hs⟩
    · obtain ⟨i2, m2, heq, hle⟩ := ih i m
      exact ⟨i2, m2, by rw [List.foldl_cons, h]; exact heq, hle⟩
    · have hdm : M.dist src.geom a.geom < m := by
        simpa [betterThan] using hb
      obtain ⟨i2, m2, heq, hle⟩ := ih a.fid (M.dist src.geom a.geom)
      exact ⟨i2, m2, by rw [List.foldl_cons, hs]; exact heq,
        le_trans hle (le_of_lt hdm)⟩

lemma foldl_step_finds {G : Type} (M : GeoModel G) (radius : ℚ)
    (roads : List (Feature G)) (src : Feature G) (c : Feature G)
    (h1 : c.fid ≠ src.fid)
    (h2 : M.dist src.geom c.geom ≤ radius)
    (h3 : crosses_road M (M.shortestLine src.geom c.geom) roads = false) :
    ∀ (l : List (Feature G)) (st : SearchState), c ∈ l →
      ∃ i2 m2, l.foldl (stepCand M radius roads src) st = some (i2, m2) ∧
        m2 ≤ M.dist src.geom c.geom := by
  intro l
  induction l with
  | nil => intro st hc; cases hc
  | cons a t ih =>
    intro st hc
    rcases List.mem_cons.mp hc with rfl | hct
    · by_cases hb : betterThan st (M.dist src.geom c.geom) = true
      · have hnl : ¬ radius < M.dist src.geom c.geom := not_lt.mpr h2
        have hs : stepCand M radius roads src st c =
            some (c.fid, M.dist src.geom c.geom) := by
          simp [stepCand, h1, hnl, hb, h3]
        obtain ⟨i2, m2, heq, hle⟩ :=
          foldl_step_mono M radius roads src t c.fid (M.dist src.geom c.geom)
        exact ⟨i2, m2, by rw [List.foldl_cons, hs]; exact heq, hle⟩
      · have hsm : ∃ i m, st = some (i, m) ∧ m ≤ M.dist src.geom c.geom := by
          match st with
          | none => simp [betterThan] at hb
          | some (i, m) =>
            refine ⟨i, m, rfl, ?_⟩
            have : ¬ M.dist src.geom c.geom < m := by
              simpa [betterThan] using hb
            exact not_lt.mp this
        obtain ⟨i, m, rfl, hmd⟩ := hsm
        rcases stepCand_eq_or M radius roads src (some (i, m)) c with
          h | ⟨_, _, hb2, _, _⟩
        · obtain ⟨i2, m2, heq, hle⟩ := foldl_step_mono M radius roads src t i m
          exact ⟨i2, m2, by rw [List.foldl_cons, h]; exact heq,
            le_trans hle hmd⟩
        · exact absurd hb2 hb
    · exact (by
        rw [List.foldl_cons]
        exact ih (stepCand M radius roads src st a) hct)

lemma foldl_step_some {G : Type} (M : GeoModel G) (radius : ℚ)
    (roads : List (Feature G)) (src : Feature G) (l : List (Feature G)) :
    ∀ (st : SearchState) (i : ℕ) (m : ℚ),
      l.foldl (stepCand M radius roads src) st = some (i, m) →
      st = some (i, m) ∨
      ∃ c ∈ l, c.fid = i ∧ M.dist src.geom c.geom = m ∧ c.fid ≠ src.fid ∧
        M.dist src.geom c.geom ≤ radius ∧
        crosses_road M (M.shortestLine src.geom c.geom) roads = false := by
  induction l with
  | nil => intro st i m h; exact Or.inl (by simpa using h)
  | cons a t ih =>
    intro st i m h
    rw [List.foldl_cons] at h
    rcases stepCand_eq_or M radius roads src st a with he | ⟨h1, h2, _, h3, hs⟩
    · rcases ih _ i m h with h' | ⟨c, hc, rest⟩
      · rw [he] at h'
        exact Or.inl h'
      · exact Or.inr ⟨c, List.mem_cons_of_mem a hc, rest⟩
    · rcases ih _ i m h with h' | ⟨c, hc, rest⟩
      · rw [hs] at h'
        have hinj := Option.some.inj h'
        exact Or.inr ⟨a, List.mem_cons_self a t, congrArg Prod.fst hinj,
          congrArg Prod.snd hinj, h1, h2, h3⟩
      · exact Or.inr ⟨c, List.mem_cons_of_mem a hc, rest⟩

lemma intersectsB_buffered_mono (fb bb : BBox) (r1 r2 : ℚ) (hr : r1 ≤ r2)
    (h : BBox.intersectsB fb (bb.buffered r1) = true) :
    BBox.intersectsB fb (bb.buffered r2) = true := by
  simp only [BBox.intersectsB, BBox.buffered, Bool.and_eq_true,
    decide_eq_true_eq] at h ⊢
  obtain ⟨⟨⟨a1, a2⟩, a3⟩, a4⟩ := h
  refine ⟨⟨⟨?_, ?_⟩, ?_⟩, ?_⟩ <;> linarith

lemma emit_of_no_viable {G : Type} (M : GeoModel G)
    (bfeats roads : List (Feature G)) (radius : ℚ) (src : Feature G)
    (h : ∀ c ∈ candidatesFor M bfeats radius src,
      c.fid = src.fid ∨ radius < M.dist src.geom c.geom ∨
      crosses_road M (M.shortestLine src.geom c.geom) roads = true) :
    emitFeature M bfeats roads radius src = ⟨src.fid, -1, -1⟩ := by
  cases hres : searchFeature M bfeats roads radius src with
  | none => simp [emitFeature, hres]
  | some p =>
    obtain ⟨i, m⟩ := p
    rcases foldl_step_some M radius roads src
        (candidatesFor M bfeats radius src) none i m
        (by simpa [searchFeature] using hres) with
      h' | ⟨c, hc, _, _, hne, hrad, hcr⟩
    · exact Option.noConfusion h'
    · rcases h c hc with h1 | h2 | h3
      · exact absurd h1 hne
      · exact absurd h2 (not_lt.mpr hrad)
      · rw [hcr] at h3
        exact Bool.noConfusion h3

lemma runFrom_no_cancel {G : Type} (M : GeoModel G)
    (bfeats roads : List (Feature G)) (radius : ℚ) :
    ∀ (l : List (Feature G)) (cur : ℕ),
      runFrom M bfeats roads radius (fun _ => false) cur l =
        l.map (emitFeature M bfeats roads radius) := by
  intro l
  induction l with
  | nil => intro cur; rfl
  | cons a t ih => intro cur; simp [runFrom, ih]

/-- Claim C1: for every source feature processed by the search loop, no
candidate other than the source itself whose distance is strictly below
the reported nearest distance and at most the search radius has a
connecting segment classified as non-crossing; the reported distance is
minimal among within-radius non-crossing candidates enumerated for the
source. -/
theorem C1_minimality {G : Type} (M : GeoModel G)
    (bfeats roads : List (Feature G)) (radius : ℚ) (src : Feature G)
    (i : ℕ) (dBest : ℚ)
    (hres : searchFeature M bfeats roads radius src = some (i, dBest))
    (c : Feature G) (hc : c ∈ candidatesFor M bfeats radius src)
    (hself : c.fid ≠ src.fid)
    (hrad : M.dist src.geom c.geom ≤ radius)
    (hlt : M.dist src.geom c.geom < dBest) :
    crosses_road M (M.shortestLine src.geom c.geom) roads = true := by
  by_contra h
  have h3 : crosses_road M (M.shortestLine src.geom c.geom) roads = false := by
    simpa using h
  obtain ⟨i2, m2, heq, hle⟩ :=
    foldl_step_finds M radius roads src c hself hrad h3
      (candidatesFor M bfeats radius src) none hc
  rw [searchFeature, heq] at hres
  have hm : m2 = dBest := congrArg Prod.snd (Option.some.inj hres)
  rw [hm] at hle
  exact absurd hlt (not_lt.mpr hle)

theorem C1_witness :
    crosses_road geoW (geoW.shortestLine fW0.geom fW2.geom) roadsW = true :=
  C1_minimality geoW bfeatsW roadsW 10 fW0 1 5
    (by norm_num [searchFeature, candidatesFor, bfeatsW, fW0, fW1, fW2, geoW,
      roadsW, BBox.buffered, BBox.intersectsB, stepCand, betterThan,
      crosses_road, crossesCandidate, segBBox, pointIsEndpoint, epsTol])
    fW2
    (by norm_num [candidatesFor, bfeatsW, fW0, fW2, geoW, BBox.buffered,
      BBox.intersectsB])
    (by decide)
    (by norm_num [geoW, fW0, fW2])
    (by norm_num [geoW, fW0, fW2])

/-- Claim C2: whenever the emitted nearest_id is not the -1 sentinel,
there is a candidate with that identifier whose distance to the source
equals the emitted nearest_dist, that distance is at most the search
radius, and the shortest connecting segment is classified as not
crossing any road. -/
theorem C2_consistency {G : Type} (M : GeoModel G)
    (bfeats roads : List (Feature G)) (radius : ℚ) (src : Feature G)
    (hfound : (emitFeature M bfeats roads radius src).nearest_id ≠ -1) :
    ∃ c ∈ candidatesFor M bfeats radius src,
      (c.fid : ℤ) = (emitFeature M bfeats roads radius src).nearest_id ∧
      (emitFeature M bfeats roads radius src).nearest_dist =
        M.dist src.geom c.geom ∧
      M.dist src.geom c.geom ≤ radius ∧
      crosses_road M (M.shortestLine src.geom c.geom) roads = false := by
  cases hres : searchFeature M bfeats roads radius src with
  | none =>
    exfalso
    apply hfound
    simp [emitFeature, hres]
  | some p =>
    obtain ⟨i, m⟩ := p
    rcases foldl_step_some M radius roads src
        (candidatesFor M bfeats radius src) none i m
        (by simpa [searchFeature] using hres) with
      h' | ⟨c, hc, hfi, hdm, _, hrad, hcr⟩
    · exact Option.noConfusion h'
    · refine ⟨c, hc, ?_, ?_, hrad, hcr⟩
      · simp [emitFeature, hres, hfi]
      · simp [emitFeature, hres, hdm]

theorem C2_witness :
    ∃ c ∈ candidatesFor geoW bfeatsW 10 fW0,
      (c.fid : ℤ) = (emitFeature geoW bfeatsW roadsW 10 fW0).nearest_id ∧
      (emitFeature geoW bfeatsW roadsW 10 fW0).nearest_dist =
        geoW.dist fW0.geom c.geom ∧
      geoW.dist fW0.geom c.geom ≤ 10 ∧
      crosses_road geoW (geoW.shortestLine fW0.geom c.geom) roadsW = false :=
  C2_consistency geoW bfeatsW roadsW 10 fW0
    (by norm_num [emitFeature, searchFeature, candidatesFor, bfeatsW, fW0,
      fW1, fW2, geoW, roadsW, BBox.buffered, BBox.intersectsB, stepCand,
      betterThan, crosses_road, crossesCandidate, segBBox, pointIsEndpoint,
      epsTol])

/-- Claim C5: for a fixed collection, obstacle set and source feature,
enlarging the search radius never loses a found neighbor and never
increases the found distance. -/
theorem C5_radius_monotone {G : Type} (M : GeoModel G)
    (bfeats roads : List (Feature G)) (src : Feature G)
    (r1 r2 : ℚ) (hr : r1 ≤ r2) (i1 : ℕ) (d1 : ℚ)
    (h1 : searchFeature M bfeats roads r1 src = some (i1, d1)) :
    ∃ i2 d2, searchFeature M bfeats roads r2 src = some (i2, d2) ∧
      d2 ≤ d1 := by
  rcases foldl_step_some M r1 roads src
      (candidatesFor M bfeats r1 src) none i1 d1
      (by simpa [searchFeature] using h1) with
    h' | ⟨c, hc, _, hdm, hne, hrad, hcr⟩
  · exact Option.noConfusion h'
  · have hc2 : c ∈ candidatesFor M bfeats r2 src := by
      rw [candidatesFor] at hc ⊢
      rcases List.mem_filter.mp hc with ⟨hmem, hbb⟩
      exact List.mem_filter.mpr
        ⟨hmem, intersectsB_buffered_mono _ _ r1 r2 hr hbb⟩
    obtain ⟨i2, m2, heq, hle⟩ :=
      foldl_step_finds M r2 roads src c hne (le_trans hrad hr) hcr
        (candidatesFor M bfeats r2 src) none hc2
    refine ⟨i2, m2, by simpa [searchFeature] using heq, ?_⟩
    rw [← hdm]
    exact hle

theorem C5_witness :
    ∃ i2 d2, searchFeature geoW bfeatsW roadsW 12 fW0 = some (i2, d2) ∧
      d2 ≤ 5 :=
  C5_radius_monotone geoW bfeatsW roadsW fW0 10 12 (by norm_num) 1 5
    (by norm_num [searchFeature, candidatesFor, bfeatsW, fW0, fW1, fW2, geoW,
      roadsW, BBox.buffered, BBox.intersectsB, stepCand, betterThan,
      crosses_road, crossesCandidate, segBBox, pointIsEndpoint, epsTol])

/-- Claim C6: a source feature with no viable candidate, every enumerated
candidate being itself, beyond the radius, or blocked by a crossing,
receives the record with nearest_id = -1 and nearest_dist = -1; the
(total) search emits it rather than raising an error. -/
theorem C6_sentinel {G : Type} (M : GeoModel G)
    (bfeats roads : List (Feature G)) (radius : ℚ) (src : Feature G)
    (h : ∀ c ∈ candidatesFor M bfeats radius src,
      c.fid = src.fid ∨ radius < M.dist src.geom c.geom ∨
      crosses_road M (M.shortestLine src.geom c.geom) roads = true) :
    emitFeature M bfeats roads radius src = ⟨src.fid, -1, -1⟩ :=
  emit_of_no_viable M bfeats roads radius src h

theorem C6_witness :
    emitFeature geoT [fT0] [] 5 fT0 = ⟨fT0.fid, -1, -1⟩ :=
  C6_sentinel geoT [fT0] [] 5 fT0
    (by norm_num [candidatesFor, fT0, geoT, BBox.buffered, BBox.intersectsB])

/-- Claim C3: when the intersection of the connecting segment with a
candidate obstacle is a single point, the per-obstacle test reports no
crossing if the point lies within the fixed tolerance of either segment
endpoint, and reports a crossing, regardless of the remaining obstacles,
if the point lies in the segment interior. -/
theorem C3_point_touch {G : Type} (M : GeoModel G) (seg : Segment)
    (o : Feature G) (p : Pt) (roads : List (Feature G))
    (hint : M.intersect seg o.geom = IntersectionKind.point p) :
    (pointIsEndpoint seg p = true → crosses_road M seg [o] = false) ∧
    (pointIsEndpoint seg p = false → o ∈ roads →
      BBox.intersectsB (M.bboxOf o.geom) (segBBox seg) = true →
      crosses_road M seg roads = true) := by
  constructor
  · intro hep
    rw [crosses_road]
    cases hb : BBox.intersectsB (M.bboxOf o.geom) (segBBox seg) with
    | false => simp [List.filter_cons, List.filter_nil, hb]
    | true => simp [List.filter_cons, List.filter_nil, hb, crossesCandidate,
        hint, hep]
  · intro hep hmem hbb
    rw [crosses_road, List.any_eq_true]
    refine ⟨o, List.mem_filter.mpr ⟨hmem, hbb⟩, ?_⟩
    simp [crossesCandidate, hint, hep]

theorem C3_witness :
    crosses_road geoC3 segC3 [roadC3] = false :=
  (C3_point_touch geoC3 segC3 roadC3 (0, 0) [roadC3] rfl).1
    (by norm_num [pointIsEndpoint, segC3, epsTol])

/-- Claim C4 counterexample: a candidate road whose intersection with the
connecting segment is a mixed geometry collection, and whose bounding box
meets the segment box, is skipped: crosses_road returns false where the
claim requires true. -/
theorem C4_counterexample :
    geoC4.intersect segC4 roadC4.geom = IntersectionKind.mixed ∧
    BBox.intersectsB (geoC4.bboxOf roadC4.geom) (segBBox segC4) = true ∧
    crosses_road geoC4 segC4 [roadC4] = false := by
  refine ⟨rfl, ?_, ?_⟩
  · norm_num [geoC4, roadC4, segC4, segBBox, BBox.intersectsB]
  · norm_num [crosses_road, segC4, geoC4, roadC4, segBBox, BBox.intersectsB,
      crossesCandidate]

/-- Claim C4 (amended): a mixed-type intersection result falls through
the elif chain of crosses_road, which inspects only line and point
results, so a run in which every candidate obstacle intersects the
segment in a mixed collection reports no crossing. -/
theorem C4_mixed_skipped {G : Type} (M : GeoModel G) (seg : Segment)
    (roads : List (Feature G))
    (h : ∀ o ∈ roads, M.intersect seg o.geom = IntersectionKind.mixed) :
    crosses_road M seg roads = false := by
  rw [crosses_road, List.any_eq_false]
  intro r hr
  have hm := h r (List.mem_filter.mp hr).1
  simp [crossesCandidate, hm]

theorem C4_witness :
    crosses_road geoC4 segC4 [roadC4] = false :=
  C4_mixed_skipped geoC4 segC4 [roadC4] (fun _ _ => rfl)

/-- Claim C7 counterexample: with searchRadius = -1 and a two-feature
collection, processAlgorithm raises nothing: it runs to completion and
produces one sentinel record per feature instead of failing fast. -/
theorem C7_counterexample :
    processAlgorithm geoT [fT0, fT1] [] (-1) (fun _ => false) =
      [⟨0, -1, -1⟩, ⟨1, -1, -1⟩] := by
  norm_num [processAlgorithm, runFrom, emitFeature, searchFeature,
    candidatesFor, fT0, fT1, geoT, BBox.buffered, BBox.intersectsB, stepCand,
    betterThan, crosses_road, crossesCandidate, segBBox, pointIsEndpoint,
    epsTol]

/-- Claim C7 (amended): processAlgorithm performs no parameter
validation: a negative search radius is not rejected, the run proceeds
and, distances being non-negative, every feature receives the sentinel
record; an empty buildings collection yields an empty output, also
without error. -/
theorem C7_no_validation {G : Type} (M : GeoModel G)
    (bfeats roads : List (Feature G)) (radius : ℚ)
    (hd : ∀ a b : G, 0 ≤ M.dist a b) (hr : radius < 0) :
    processAlgorithm M bfeats roads radius (fun _ => false) =
      bfeats.map (fun f => ⟨f.fid, -1, -1⟩) ∧
    processAlgorithm M [] roads radius (fun _ => false) = [] := by
  constructor
  · rw [processAlgorithm, runFrom_no_cancel]
    apply List.map_congr_left
    intro f _
    exact emit_of_no_viable M bfeats roads radius f
      (fun c _ => Or.inr (Or.inl (lt_of_lt_of_le hr (hd _ _))))
  · rfl

theorem C7_witness :
    processAlgorithm geoT [fT0, fT1] [] (-1) (fun _ => false) =
      [fT0, fT1].map (fun f => ⟨f.fid, -1, -1⟩) ∧
    processAlgorithm geoT [] [] (-1) (fun _ => false) = [] :=
  C7_no_validation geoT [fT0, fT1] [] (-1)
    (fun a b => by norm_num [geoT]) (by norm_num)

/-- Claim C8 counterexample: a run over two features cancelled before the
second iteration returns a value identical to that of a completed,
never-cancelled run over the one-feature prefix collection: the returned
value carries no incomplete flag that distinguishes cancellation. -/
theorem C8_counterexample :
    processAlgorithm geoT [fT0, fT1] [] 0 (fun i => decide (1 ≤ i)) =
      processAlgorithm geoT [fT0] [] 0 (fun _ => false) := by
  norm_num [processAlgorithm, runFrom, emitFeature, searchFeature,
    candidatesFor, fT0, fT1, geoT, BBox.buffered, BBox.intersectsB, stepCand,
    betterThan, crosses_road, crossesCandidate, segBBox, pointIsEndpoint,
    epsTol]

/-- Claim C8 (amended): cancellation is observed only at the top of a
source-feature iteration, so a run cancelled from iteration k onward
emits exactly the fully computed records of the first k features and
nothing for the feature in progress; the return value is the plain
record list, with no incomplete flag. -/
theorem C8_cancellation {G : Type} (M : GeoModel G)
    (bfeats roads : List (Feature G)) (radius : ℚ) (k : ℕ) :
    processAlgorithm M bfeats roads radius (fun i => decide (k ≤ i)) =
      (bfeats.take k).map (emitFeature M bfeats roads radius) := by
  rw [processAlgorithm]
  have key : ∀ (l : List (Feature G)) (cur : ℕ),
      runFrom M bfeats roads radius (fun i => decide (k ≤ i)) cur l =
        (l.take (k - cur)).map (emitFeature M bfeats roads radius) := by
    intro l
    induction l with
    | nil => intro cur; simp [runFrom]
    | cons a t ih =>
      intro cur
      by_cases h : k ≤ cur
      · simp [runFrom, h, Nat.sub_eq_zero_of_le h]
      · have hk : k - cur = (k - (cur + 1)) + 1 := by omega
        simp [runFrom, h, hk, ih]
  simpa using key bfeats 0

/-- Claim C9: the column validation of process_gpkg does not guarantee
classification succeeds: a row whose attribute keys are exactly the nine
validated column names passes validation, yet classify_land_use fails
with a missing-key error at the first lookup, the key Motorway. -/
theorem C9_column_mismatch (row : Row)
    (h : row.map Prod.fst = required_cols) :
    validationPasses (row.map Prod.fst) = true ∧
    classify_land_use row = Except.error "Motorway" := by
  constructor
  · rw [h]
    decide
  · have hm : lookupVal row "Motorway" = none := by
      rw [lookupVal]
      have hf : row.find? (fun p => p.1 = "Motorway") = none := by
        rw [List.find?_eq_none]
        intro a ha
        have h1 : a.1 ∈ required_cols := by
          rw [← h]
          exact List.mem_map_of_mem Prod.fst ha
        simp only [decide_eq_true_eq]
        intro hcontra
        rw [hcontra] at h1
        revert h1
        decide
      rw [hf]
      rfl
    rw [classify_land_use, hm]

theorem C9_witness :
    validationPasses (rowC9.map Prod.fst) = true ∧
    classify_land_use rowC9 = Except.error "Motorway" :=
  C9_column_mismatch rowC9 (by decide)

/-- Claim C10: whenever classify_land_use reaches the Service check with
Motorway falsy, Closest at most 20, PrimarySecondary falsy and a frontage
ratio of at least 0.2, a truthy Service yields Mixed: the inner
Non Residential return behind the repeated frontage test is unreachable
there. -/
theorem C10_unreachable_branch (row : Row) (vM vC vP vF vS : Value)
    (hM : lookupVal row "Motorway" = some vM)
    (hMf : truthy vM = false)
    (hC : lookupVal row "Closest" = some vC)
    (hCle : ¬ (20 < toNum vC))
    (hP : lookupVal row "PrimarySecondary" = some vP)
    (hPf : truthy vP = false)
    (hF : lookupVal row "frontage_ratio" = some vF)
    (hFge : ¬ (toNum vF < 1/5))
    (hV : lookupVal row "Service" = some vS)
    (hVt : truthy vS = true) :
    classify_land_use row = Except.ok "Mixed" := by
  have hFge2 : ¬ toNum vF < (5 : ℚ)⁻¹ := by
    simpa [one_div] using hFge
  simp [classify_land_use, hM, hC, hP, hF, hV, hMf, hPf, hVt, hCle, hFge2]

theorem C10_witness :
    classify_land_use rowC10 = Except.ok "Mixed" :=
  C10_unreachable_branch rowC10 (.vBool false) (.vNum 10) (.vBool false)
    (.vNum (3/10)) (.vBool true)
    rfl rfl rfl (by norm_num [toNum])
    rfl rfl rfl (by norm_num [toNum])
    rfl rfl
